import Mathlib

/-!
# Verification of the coraxbot OAuth2/PKCE flow (src/app.py)

A shallow embedding of the Flask application in `src/app.py`: the PKCE
challenge derivation (`generate_code_challenge`), the flow initiation route
(`keycloak_oauth_init`), the OAuth callback route (`keycloak_oauth_callback`),
the logout route (`logout`), and the cloud resource counter
(`get_access_token_from_cloud`, `get_all_vms_in_cloud`).

External HTTP traffic is modelled by oracles passed as arguments: each
outbound request is answered by an `Except String HttpResp` value
(network-level failure carrying the exception text, or a response with a
status code and a JSON body).  The Flask session is a record of optional
fields, one per key the source ever stores.  Randomness
(`secrets.token_urlsafe`) is an explicit stream `rng : Nat → String`
together with a count of how many draws were consumed.
-/

/-- A JSON value as far as the source manipulates one: `null`, a string, or
an integer.  Python truthiness over these is `pyTruthy`. -/
inductive JVal where
  | null
  | str (s : String)
  | num (n : Int)
deriving DecidableEq, Repr

/-- A JSON object, as returned by `response.json()`: an association list of
keys to values (Python dicts have unique keys; lookup takes the first). -/
abbrev JObj := List (String × JVal)

/-- `d.get(k)` on a Python dict: the value when the key is present, else
`None`. -/
def JObj.get (o : JObj) (k : String) : Option JVal :=
  List.lookup k o

/-- Python truthiness of a JSON value: `None`, `""` and `0` are falsy. -/
def pyTruthy : JVal → Bool
  | .null => false
  | .str s => !(s == "")
  | .num n => !(n == 0)

/-- Python truthiness of an optional JSON value (`None` for a missing key is
falsy). -/
def pyTruthyOpt : Option JVal → Bool
  | none => false
  | some v => pyTruthy v

/-- Python truthiness of an optional string (e.g. `request.args.get(...)`):
`None` and the empty string are falsy. -/
def truthyStr : Option String → Bool
  | none => false
  | some s => !(s == "")

/-- Python `a or b` over two dict lookups: the first operand when truthy,
otherwise the second. -/
def pyOr (a b : Option JVal) : Option JVal :=
  if pyTruthyOpt a then a else b

/-- Python `str()` of a JSON value, as an f-string would render it. -/
def jvalToStr : JVal → String
  | .null => "None"
  | .str s => s
  | .num n => toString n

/-- The Flask session of `app.py`, one optional field per key the source
ever writes (`is_authed`, `auth_provider`, `user_email`, `user_name`,
`user_cloud_project_id`, `all_vms`, `keycloak_state`,
`keycloak_code_verifier`).  `none` means the key is absent. -/
structure Session where
  is_authed : Option Bool
  auth_provider : Option String
  user_email : Option JVal
  user_name : Option JVal
  user_cloud_project_id : Option JVal
  all_vms : Option JVal
  keycloak_state : Option String
  keycloak_code_verifier : Option String
deriving DecidableEq, Repr

/-- The empty session: no key set. -/
def Session.empty : Session :=
  ⟨none, none, none, none, none, none, none, none⟩

/-- `/logout` (src/app.py lines 77-81): `session.clear()` empties the whole
session dict, then a flash message and a redirect (not modelled further). -/
def logout (_s : Session) : Session :=
  Session.empty

/-! ## SHA-256 over byte lists (hashlib.sha256), words as `Nat` mod 2^32 -/

/-- Truncation to a 32-bit word. -/
def w32 (n : Nat) : Nat := n % 4294967296

/-- 32-bit right rotation. -/
def rotr32 (r x : Nat) : Nat :=
  w32 ((x >>> r) ||| (x <<< (32 - r)))

/-- 32-bit bitwise complement. -/
def not32 (x : Nat) : Nat := 4294967295 ^^^ x

/-- The first sixty-four prime numbers, from which FIPS 180-4 derives the
SHA-256 constants. -/
def firstPrimes : List Nat :=
  [2, 3, 5, 7, 11, 13, 17, 19, 23, 29, 31, 37, 41, 43, 47, 53,
   59, 61, 67, 71, 73, 79, 83, 89, 97, 101, 103, 107, 109, 113, 127, 131,
   137, 139, 149, 151, 157, 163, 167, 173, 179, 181, 191, 193, 197, 199, 211, 223,
   227, 229, 233, 239, 241, 251, 257, 263, 269, 271, 277, 281, 283, 293, 307, 311]

/-- Binary search step for the integer cube root. -/
def cbrtAux (n : Nat) : Nat → Nat → Nat → Nat
  | 0, lo, _ => lo
  | fuel + 1, lo, hi =>
      if hi ≤ lo + 1 then lo
      else
        let mid := (lo + hi) / 2
        if mid * mid * mid ≤ n then cbrtAux n fuel mid hi
        else cbrtAux n fuel lo mid

/-- The integer cube root: the largest `r` with `r^3 ≤ n` (for the operand
sizes used here, 200 bisection steps are ample). -/
def natCbrt (n : Nat) : Nat := cbrtAux n 200 0 (n + 1)

/-- The 64 SHA-256 round constants: the first 32 bits of the fractional
parts of the cube roots of the first 64 primes (FIPS 180-4, section 4.2.2),
computed as `floor(cbrt(p) * 2^32) mod 2^32`. -/
def shaK : List Nat :=
  firstPrimes.map fun p => natCbrt (p * 2 ^ 96) % 4294967296

/-- The SHA-256 initial hash state: the first 32 bits of the fractional
parts of the square roots of the first 8 primes (FIPS 180-4, section 5.3.3),
computed as `floor(sqrt(p) * 2^32) mod 2^32`. -/
def shaH0 : List Nat :=
  (firstPrimes.take 8).map fun p => Nat.sqrt (p * 2 ^ 64) % 4294967296

/-- Big-endian bytes of `n`, `k` bytes wide. -/
def toBE : Nat → Nat → List Nat
  | 0, _ => []
  | k + 1, n => toBE k (n >>> 8) ++ [n % 256]

/-- SHA-256 message padding: append `0x80`, zeros to 56 mod 64, then the
bit length as 8 big-endian bytes. -/
def shaPad (msg : List Nat) : List Nat :=
  let len := msg.length
  let k := (119 - (len % 64)) % 64
  msg ++ [0x80] ++ List.replicate k 0 ++ toBE 8 (8 * len)

/-- Group bytes into big-endian 32-bit words. -/
def bytesToWords : List Nat → List Nat
  | b0 :: b1 :: b2 :: b3 :: rest =>
      (b0 * 16777216 + b1 * 65536 + b2 * 256 + b3) :: bytesToWords rest
  | _ => []

/-- Group a word list into 16-word blocks (the padded message length is a
multiple of 16 words, so the ragged final case never fires). -/
def group16 : List Nat → List (List Nat)
  | [] => []
  | w0 :: w1 :: w2 :: w3 :: w4 :: w5 :: w6 :: w7 ::
    w8 :: w9 :: w10 :: w11 :: w12 :: w13 :: w14 :: w15 :: rest =>
      [w0, w1, w2, w3, w4, w5, w6, w7, w8, w9, w10, w11, w12, w13, w14, w15]
        :: group16 rest
  | rest => [rest]

/-- One extension step of the SHA-256 message schedule: append
`w[i-16] + s0(w[i-15]) + w[i-7] + s1(w[i-2])`. -/
def shaExtendOnce (w : List Nat) : List Nat :=
  let len := w.length
  let w15 := w.getD (len - 15) 0
  let w2 := w.getD (len - 2) 0
  let s0 := rotr32 7 w15 ^^^ rotr32 18 w15 ^^^ (w15 >>> 3)
  let s1 := rotr32 17 w2 ^^^ rotr32 19 w2 ^^^ (w2 >>> 10)
  w ++ [w32 (w.getD (len - 16) 0 + s0 + w.getD (len - 7) 0 + s1)]

/-- Iterate the extension step `n` times. -/
def shaExtend : Nat → List Nat → List Nat
  | 0, w => w
  | n + 1, w => shaExtend n (shaExtendOnce w)

/-- One SHA-256 compression round over state `[a,b,c,d,e,f,g,h]` with a
round constant and a schedule word. -/
def shaRound (st : List Nat) (kw : Nat × Nat) : List Nat :=
  let a := st.getD 0 0
  let b := st.getD 1 0
  let c := st.getD 2 0
  let d := st.getD 3 0
  let e := st.getD 4 0
  let f := st.getD 5 0
  let g := st.getD 6 0
  let h := st.getD 7 0
  let S1 := rotr32 6 e ^^^ rotr32 11 e ^^^ rotr32 25 e
  let ch := (e &&& f) ^^^ (not32 e &&& g)
  let temp1 := w32 (h + S1 + ch + kw.1 + kw.2)
  let S0 := rotr32 2 a ^^^ rotr32 13 a ^^^ rotr32 22 a
  let maj := (a &&& b) ^^^ (a &&& c) ^^^ (b &&& c)
  let temp2 := w32 (S0 + maj)
  [w32 (temp1 + temp2), a, b, c, w32 (d + temp1), e, f, g]

/-- Process one 16-word block: extend the schedule to 64 words, run 64
rounds, add the result into the running hash. -/
def shaBlock (h : List Nat) (block : List Nat) : List Nat :=
  let w := shaExtend 48 block
  let st := (shaK.zip w).foldl shaRound h
  (h.zip st).map fun p => w32 (p.1 + p.2)

/-- SHA-256 digest (32 bytes) of a byte list. -/
def sha256Bytes (msg : List Nat) : List Nat :=
  let blocks := group16 (bytesToWords (shaPad msg))
  ((blocks.foldl shaBlock shaH0).map (toBE 4)).flatten

/-! ## base64url (base64.urlsafe_b64encode, padding stripped) -/

/-- The base64url alphabet. -/
def b64urlAlphabet : List Char :=
  "ABCDEFGHIJKLMNOPQRSTUVWXYZabcdefghijklmnopqrstuvwxyz0123456789-_".toList

/-- The base64url character for a 6-bit value. -/
def b64Char (n : Nat) : Char := b64urlAlphabet.getD n 'A'

/-- base64url-encode a byte list without padding (the source strips the
trailing `=` signs with `rstrip`). -/
def b64urlEncode : List Nat → String
  | [] => ""
  | [b0] =>
      String.mk [b64Char (b0 >>> 2), b64Char (w32 ((b0 &&& 3) <<< 4) % 64)]
  | [b0, b1] =>
      String.mk [b64Char (b0 >>> 2), b64Char (((b0 &&& 3) <<< 4) ||| (b1 >>> 4)),
                 b64Char (((b1 &&& 15) <<< 2) % 64)]
  | b0 :: b1 :: b2 :: rest =>
      String.mk [b64Char (b0 >>> 2), b64Char (((b0 &&& 3) <<< 4) ||| (b1 >>> 4)),
                 b64Char ((((b1 &&& 15) <<< 2) ||| (b2 >>> 6)) % 64),
                 b64Char (b2 &&& 63)]
        ++ b64urlEncode rest

/-- ASCII bytes of a string (`s.encode("ascii")`; the source only feeds it
URL-safe ASCII verifiers). -/
def asciiBytes (s : String) : List Nat :=
  s.toList.map Char.toNat

/-- `generate_code_challenge` (src/app.py lines 89-92): SHA-256 over the
ASCII bytes of the verifier, base64url-encoded without padding — the PKCE
S256 transform. -/
def generate_code_challenge (code_verifier : String) : String :=
  b64urlEncode (sha256Bytes (asciiBytes code_verifier))

/-! ## urllib.parse.urlencode (quote_plus percent-encoding) -/

/-- UTF-8 bytes of a code point. -/
def utf8Enc (n : Nat) : List Nat :=
  if n < 128 then [n]
  else if n < 2048 then [192 ||| (n >>> 6), 128 ||| (n &&& 63)]
  else if n < 65536 then
    [224 ||| (n >>> 12), 128 ||| ((n >>> 6) &&& 63), 128 ||| (n &&& 63)]
  else
    [240 ||| (n >>> 18), 128 ||| ((n >>> 12) &&& 63),
     128 ||| ((n >>> 6) &&& 63), 128 ||| (n &&& 63)]

/-- Uppercase hex digits. -/
def hexUpper : List Char := "0123456789ABCDEF".toList

/-- A percent-encoded byte, `%XX`. -/
def pctByte (b : Nat) : String :=
  String.mk ['%', hexUpper.getD (b / 16) '0', hexUpper.getD (b % 16) '0']

/-- `urllib.parse.quote_plus` on one character: space becomes `+`, the
always-safe characters (ASCII alphanumerics and `_.-~`) pass through,
everything else is percent-encoded byte by byte. -/
def quote_plus_char (c : Char) : String :=
  if c = ' ' then "+"
  else if c.isAlphanum || c = '_' || c = '.' || c = '-' || c = '~' then
    String.mk [c]
  else
    String.join ((utf8Enc c.toNat).map pctByte)

/-- `urllib.parse.quote_plus` on a string. -/
def quote_plus (s : String) : String :=
  String.join (s.toList.map quote_plus_char)

/-- `urllib.parse.urlencode`: `k=v` pairs joined by `&`, keys and values
quoted. -/
def urlencode (ps : List (String × String)) : String :=
  String.intercalate "&" (ps.map fun kv => quote_plus kv.1 ++ "=" ++ quote_plus kv.2)

/-! ## Flow initiation (/oauth/keycloak/init) -/

/-- The provider configuration read from the environment (src/app.py lines
41-47); `os.getenv` defaults every value to the empty string, so an absent
setting is modelled by `""`. -/
structure Config where
  keycloak_url : String
  keycloak_realm : String
  keycloak_client_id : String
  keycloak_client_secret : String
  app_origin : String
deriving DecidableEq, Repr

/-- The JSON body `keycloak_oauth_init` returns: either
`{success: false, error: e}` with HTTP 500, or
`{success: true, auth_url: u, state: s}`. -/
inductive InitResp where
  | failure (error : String)
  | success (auth_url : String) (state : String)
deriving DecidableEq, Repr

/-- The observable outcome of one `/oauth/keycloak/init` request: the JSON
response, the session afterwards, and how many random tokens
(`secrets.token_urlsafe`) were drawn. -/
structure InitOut where
  resp : InitResp
  session : Session
  draws : Nat
deriving DecidableEq, Repr

/-- `keycloak_oauth_init` (src/app.py lines 95-140).  `pingExit` is the
exit status of the `ping` liveness probe (`os.system`), nonzero meaning the
provider host is unreachable; `rng` is the stream of
`secrets.token_urlsafe(32)` draws (`rng 0` becomes the PKCE verifier,
`rng 1` the CSRF state). -/
def keycloak_oauth_init (cfg : Config) (pingExit : Nat) (rng : Nat → String)
    (sess : Session) : InitOut :=
  if cfg.keycloak_url = "" ∨ cfg.keycloak_realm = "" ∨ cfg.keycloak_client_id = "" then
    ⟨.failure "Keycloak not configured", sess, 0⟩
  else if cfg.app_origin = "" then
    ⟨.failure "APP_ORIGIN not configured", sess, 0⟩
  else if pingExit ≠ 0 then
    ⟨.failure "Network issues with Keycloak", sess, 0⟩
  else
    let code_verifier := rng 0
    let code_challenge := generate_code_challenge code_verifier
    let state := rng 1
    let sess1 := { sess with keycloak_state := some state,
                             keycloak_code_verifier := some code_verifier }
    let keycloak_auth_url :=
      cfg.keycloak_url ++ "/auth/realms/" ++ cfg.keycloak_realm
        ++ "/protocol/openid-connect/auth"
    let redirect_uri := cfg.app_origin ++ "/oauth/keycloak/callback"
    let params : List (String × String) :=
      [("client_id", cfg.keycloak_client_id),
       ("response_type", "code"),
       ("redirect_uri", redirect_uri),
       ("scope", "openid profile email"),
       ("state", state),
       ("code_challenge", code_challenge),
       ("code_challenge_method", "S256")]
    let auth_url := keycloak_auth_url ++ "?" ++ urlencode params
    ⟨.success auth_url state, sess1, 2⟩

/-! ## External HTTP responses and the cloud resource counter -/

/-- An HTTP response as the source consumes one: a status code and the
parsed JSON body. -/
structure HttpResp where
  status : Nat
  json : JObj
deriving DecidableEq, Repr

/-- The Python exceptions the embedded code can raise:
`requests.RequestException` (covering transport errors and
`raise_for_status` HTTP errors, with the exception text) and the
`AttributeError` raised by calling a method on `None`. -/
inductive PyExc where
  | requestException (detail : String)
  | attributeError (detail : String)
deriving DecidableEq, Repr

/-- The outbound network calls a request handler can attempt, in order. -/
inductive ExtCall where
  | tokenExchange
  | userinfoReq
  | iamTokenReq
  | inventoryReq (url : String)
deriving DecidableEq, Repr

/-- Oracle for the two cloud.ru calls of one `get_all_vms_in_cloud`
invocation: the IAM token response and, keyed by the requested URL, the
inventory response.  `.error` is a transport-level failure carrying the
exception text. -/
structure CloudOracle where
  iam : Except String HttpResp
  inv : String → Except String HttpResp

/-- `get_access_token_from_cloud` (src/app.py lines 245-261): POST the
key/secret pair to the IAM endpoint, `raise_for_status`, then read the
`access_token` field (absent gives `None`). -/
def get_access_token_from_cloud (o : CloudOracle) : Except PyExc (Option JVal) :=
  match o.iam with
  | .error e => .error (.requestException e)
  | .ok response =>
      if 400 ≤ response.status ∧ response.status < 600 then
        .error (.requestException (toString response.status))
      else
        .ok (JObj.get response.json "access_token")

/-- The inventory URL of src/app.py line 267: an f-string with no
placeholder, so the project id is the hardcoded
`49abf5c8-9f16-4ca3-b5d3-5eca9bfac631` whatever project was passed in. -/
def vms_url : String :=
  "https://compute.api.cloud.ru/api/v1/vms?project_id=49abf5c8-9f16-4ca3-b5d3-5eca9bfac631"

/-- `get_all_vms_in_cloud` (src/app.py lines 263-278): obtain a service
token, GET the inventory URL (note: `cloud_project_id_for_token` is never
used — the URL hardcodes a project id), `raise_for_status`, then return the
`total` field defaulting to 0.  Alongside the result, the list of network
calls attempted. -/
def get_all_vms_in_cloud (cloud_project_id_for_token : Option JVal)
    (o : CloudOracle) : Except PyExc JVal × List ExtCall :=
  match get_access_token_from_cloud o with
  | .error e => (.error e, [.iamTokenReq])
  | .ok _token =>
      match o.inv vms_url with
      | .error e =>
          (.error (.requestException e), [.iamTokenReq, .inventoryReq vms_url])
      | .ok response =>
          if 400 ≤ response.status ∧ response.status < 600 then
            (.error (.requestException (toString response.status)),
             [.iamTokenReq, .inventoryReq vms_url])
          else
            (.ok ((JObj.get response.json "total").getD (.num 0)),
             [.iamTokenReq, .inventoryReq vms_url])

/-! ## The OAuth callback (/oauth/keycloak/callback) -/

/-- The query parameters of the callback request
(`request.args.get(...)`). -/
structure Args where
  code : Option String
  state : Option String
  error : Option String
  error_description : Option String
deriving DecidableEq, Repr

/-- How one callback request terminates: a redirect to `/` carrying a
flash message with its category, or an uncaught Python exception (Flask
then answers 500 and, crucially, skips `save_session`, so session
mutations made before the exception are not persisted). -/
inductive CallbackResult where
  | redirect (msg : String) (category : String)
  | uncaught (e : PyExc)
deriving DecidableEq, Repr

/-- The observable outcome of one callback request: the result, the
persisted session afterwards, and the outbound calls attempted. -/
structure CallbackOut where
  result : CallbackResult
  session : Session
  calls : List ExtCall
deriving DecidableEq, Repr

/-- `keycloak_oauth_callback` (src/app.py lines 143-242).  `tokenResp`
answers the token-endpoint POST, `userinfoResp` the userinfo GET, and
`cloud1`/`cloud2` the first (line 223, result discarded) and second
(line 231) invocations of `get_all_vms_in_cloud`.  Branches in source
order: provider error parameter; CSRF state check; missing code; missing
verifier; token exchange (network failure caught as `RequestException`,
`error` key, missing `access_token`); best-effort userinfo; the unguarded
`user_info.get(...)` of line 222 which raises `AttributeError` when the
userinfo lookup failed; the discarded first VM count; session finalization
with the second VM count; cleanup of the PKCE/CSRF keys on success only. -/
def keycloak_oauth_callback (args : Args) (sess : Session)
    (tokenResp : Except String HttpResp) (userinfoResp : Except String HttpResp)
    (cloud1 cloud2 : CloudOracle) : CallbackOut :=
  let error_description := args.error_description.getD ""
  if truthyStr args.error then
    ⟨.redirect ("Ошибка авторизации Keycloak: "
        ++ (if error_description == "" then args.error.getD "" else error_description))
      "error", sess, []⟩
  else
    let stored_state := sess.keycloak_state
    if !truthyStr args.state || args.state != stored_state then
      ⟨.redirect "Ошибка безопасности: неверный state параметр" "error", sess, []⟩
    else if !truthyStr args.code then
      ⟨.redirect "Ошибка: не получен код авторизации" "error", sess, []⟩
    else
      let code_verifier := sess.keycloak_code_verifier
      if !truthyStr code_verifier then
        ⟨.redirect "Ошибка: PKCE verifier не найден" "error", sess, []⟩
      else
        match tokenResp with
        | .error e =>
            ⟨.redirect ("Ошибка API: " ++ e) "error", sess, [.tokenExchange]⟩
        | .ok token_response =>
            let result := token_response.json
            if (JObj.get result "error").isSome then
              ⟨.redirect ("Ошибка обмена токена: "
                  ++ jvalToStr ((JObj.get result "error_description").getD
                       ((JObj.get result "error").getD (.str "Unknown error"))))
                "error", sess, [.tokenExchange]⟩
            else
              let access_token := JObj.get result "access_token"
              if !pyTruthyOpt access_token then
                ⟨.redirect "Ошибка: токен доступа не получен" "error", sess,
                 [.tokenExchange]⟩
              else
                let user_info : Option JObj :=
                  match userinfoResp with
                  | .error _ => none
                  | .ok userinfo_response =>
                      if userinfo_response.status == 200 then
                        some userinfo_response.json
                      else none
                match user_info with
                | none =>
                    -- line 222: user_info.get on None raises AttributeError,
                    -- which the except clause (RequestException only) does
                    -- not catch; Flask skips save_session on the way out.
                    ⟨.uncaught (.attributeError "NoneType object has no attribute get"),
                     sess, [.tokenExchange, .userinfoReq]⟩
                | some ui =>
                    let cloud_project_id_for_token := JObj.get ui "cloud_project_id"
                    let r1 := get_all_vms_in_cloud cloud_project_id_for_token cloud1
                    match r1.1 with
                    | .error (.requestException d) =>
                        ⟨.redirect ("Ошибка API: " ++ d) "error", sess,
                         [.tokenExchange, .userinfoReq] ++ r1.2⟩
                    | .error e =>
                        ⟨.uncaught e, sess, [.tokenExchange, .userinfoReq] ++ r1.2⟩
                    | .ok _ =>
                        let sess1 := { sess with is_authed := some true,
                                                 auth_provider := some "keycloak" }
                        if ui ≠ ([] : JObj) then
                          -- `if user_info:` — a nonempty dict is truthy
                          let sess2 := { sess1 with
                            user_email := JObj.get ui "email",
                            user_name := pyOr (JObj.get ui "preferred_username")
                                              (JObj.get ui "name"),
                            user_cloud_project_id := JObj.get ui "cloud_project_id" }
                          let r2 := get_all_vms_in_cloud cloud_project_id_for_token cloud2
                          match r2.1 with
                          | .error (.requestException d) =>
                              ⟨.redirect ("Ошибка API: " ++ d) "error", sess2,
                               [.tokenExchange, .userinfoReq] ++ r1.2 ++ r2.2⟩
                          | .error e =>
                              ⟨.uncaught e, sess,
                               [.tokenExchange, .userinfoReq] ++ r1.2 ++ r2.2⟩
                          | .ok v =>
                              let sess3 := { sess2 with all_vms := some v }
                              let sess4 := { sess3 with keycloak_state := none,
                                                        keycloak_code_verifier := none }
                              ⟨.redirect "Успешная авторизация через Keycloak" "success",
                               sess4, [.tokenExchange, .userinfoReq] ++ r1.2 ++ r2.2⟩
                        else
                          let sess4 := { sess1 with keycloak_state := none,
                                                    keycloak_code_verifier := none }
                          ⟨.redirect "Успешная авторизация через Keycloak" "success",
                           sess4, [.tokenExchange, .userinfoReq] ++ r1.2⟩

/-! ## Concrete fixtures for witnesses and counterexamples -/

/-- A session holding a PendingFlow: CSRF state `S`, PKCE verifier `V`. -/
def sessPending : Session :=
  { Session.empty with keycloak_state := some "S", keycloak_code_verifier := some "V" }

/-- Callback arguments carrying a code and the matching state. -/
def argsGood : Args := ⟨some "C", some "S", none, none⟩

/-- A successful token-endpoint response. -/
def tokGood : Except String HttpResp := .ok ⟨200, [("access_token", .str "T1")]⟩

/-- A successful userinfo response with identity claims. -/
def uiGood : Except String HttpResp :=
  .ok ⟨200, [("email", .str "a@b.com"), ("preferred_username", .str "alice"),
             ("cloud_project_id", .str "P1")]⟩

/-- A cloud oracle where both calls succeed, inventory total 7. -/
def cloudGood : CloudOracle :=
  ⟨.ok ⟨200, [("access_token", .str "svc")]⟩, fun _ => .ok ⟨200, [("total", .num 7)]⟩⟩

/-- A cloud oracle whose IAM call fails at the network level. -/
def cloudDown : CloudOracle :=
  ⟨.error "connection refused", fun _ => .error "connection refused"⟩

/-! ## Shared lemmas -/

/-- The CSRF gate of the callback: without a provider error parameter, an
absent/empty state or one differing from the stored `keycloak_state` ends
the request with the state-error flash and an untouched session. -/
lemma csrf_check_fails (args : Args) (sess : Session)
    (tokenResp userinfoResp : Except String HttpResp) (cloud1 cloud2 : CloudOracle)
    (herr : truthyStr args.error = false)
    (hbad : truthyStr args.state = false ∨ args.state ≠ sess.keycloak_state) :
    keycloak_oauth_callback args sess tokenResp userinfoResp cloud1 cloud2 =
      ⟨.redirect "Ошибка безопасности: неверный state параметр" "error", sess, []⟩ := by
  have hcond : (!truthyStr args.state || args.state != sess.keycloak_state) = true := by
    rcases hbad with h | h
    · simp [h]
    · simp [bne_iff_ne, h]
  unfold keycloak_oauth_callback
  simp [herr, hcond]

/-! ## C5 — CSRF state validation -/

/-- C5: for every callback invocation without a provider error parameter in
which the incoming state is absent (or empty), differs from the stored
PendingFlow state, or no PendingFlow is on record, the callback fails with
the CSRF-mismatch flash and the session is left exactly as it was — in
particular it is not marked authenticated. -/
theorem c5_csrf_mismatch_fails (args : Args) (sess : Session)
    (tokenResp userinfoResp : Except String HttpResp) (cloud1 cloud2 : CloudOracle)
    (herr : truthyStr args.error = false)
    (hbad : truthyStr args.state = false ∨ args.state ≠ sess.keycloak_state) :
    keycloak_oauth_callback args sess tokenResp userinfoResp cloud1 cloud2 =
      ⟨.redirect "Ошибка безопасности: неверный state параметр" "error", sess, []⟩ :=
  csrf_check_fails args sess tokenResp userinfoResp cloud1 cloud2 herr hbad

/-- C5 witness: a mismatched state `X` against stored state `S` fails with
the CSRF flash and leaves the session untouched. -/
theorem c5_csrf_mismatch_fails_witness :
    keycloak_oauth_callback ⟨some "C", some "X", none, none⟩ sessPending
        tokGood uiGood cloudGood cloudGood =
      ⟨.redirect "Ошибка безопасности: неверный state параметр" "error", sessPending, []⟩ :=
  c5_csrf_mismatch_fails ⟨some "C", some "X", none, none⟩ sessPending
    tokGood uiGood cloudGood cloudGood (by decide) (Or.inr (by decide))

/-! ## C9 — logout clears the PendingFlow too -/

/-- C9: `logout` clears the entire session, PendingFlow included, so any
callback arriving after logout (without a provider error parameter) fails
the CSRF state check rather than completing the pending flow, and the
session stays empty and unauthenticated. -/
theorem c9_logout_clears_pending_flow (s : Session) (args : Args)
    (tokenResp userinfoResp : Except String HttpResp) (cloud1 cloud2 : CloudOracle)
    (herr : truthyStr args.error = false) :
    logout s = Session.empty ∧
    keycloak_oauth_callback args (logout s) tokenResp userinfoResp cloud1 cloud2 =
      ⟨.redirect "Ошибка безопасности: неверный state параметр" "error",
       Session.empty, []⟩ := by
  refine ⟨rfl, ?_⟩
  refine csrf_check_fails args Session.empty tokenResp userinfoResp cloud1 cloud2 herr ?_
  cases hstate : args.state with
  | none => exact Or.inl rfl
  | some a => exact Or.inr (by simp [hstate, Session.empty])

/-- C9 witness: logging out of an authenticated session with an outstanding
PendingFlow, then replaying a callback that would have matched it, fails
the CSRF check. -/
theorem c9_logout_clears_pending_flow_witness :
    logout { sessPending with is_authed := some true } = Session.empty ∧
    keycloak_oauth_callback argsGood
        (logout { sessPending with is_authed := some true })
        tokGood uiGood cloudGood cloudGood =
      ⟨.redirect "Ошибка безопасности: неверный state параметр" "error",
       Session.empty, []⟩ :=
  c9_logout_clears_pending_flow { sessPending with is_authed := some true }
    argsGood tokGood uiGood cloudGood cloudGood (by decide)

/-! ## C7 — successful initiation: URL parameters and PendingFlow -/

/-- C7: for every successful flow initiation (complete configuration,
liveness probe passed), the authorization URL is the provider auth endpoint
with a query string built from parameters including `client_id`,
`response_type=code`, `redirect_uri`, `scope`, the state `S = rng 1`, a
`code_challenge` `C`, and `code_challenge_method=S256`; the session holds
`PendingFlow[state = S, verifier = V = rng 0]` and `C` is exactly
`generate_code_challenge V` (the S256 transform of the verifier). -/
theorem c7_init_success_url_and_pending_flow (cfg : Config) (pingExit : Nat)
    (rng : Nat → String) (sess : Session)
    (h1 : cfg.keycloak_url ≠ "") (h2 : cfg.keycloak_realm ≠ "")
    (h3 : cfg.keycloak_client_id ≠ "") (h4 : cfg.app_origin ≠ "")
    (h5 : pingExit = 0) :
    ∃ ps C,
      (keycloak_oauth_init cfg pingExit rng sess).resp =
        .success (cfg.keycloak_url ++ "/auth/realms/" ++ cfg.keycloak_realm
            ++ "/protocol/openid-connect/auth" ++ "?" ++ urlencode ps) (rng 1)
      ∧ ("client_id", cfg.keycloak_client_id) ∈ ps
      ∧ ("response_type", "code") ∈ ps
      ∧ ("redirect_uri", cfg.app_origin ++ "/oauth/keycloak/callback") ∈ ps
      ∧ ("scope", "openid profile email") ∈ ps
      ∧ ("state", rng 1) ∈ ps
      ∧ ("code_challenge", C) ∈ ps
      ∧ ("code_challenge_method", "S256") ∈ ps
      ∧ C = generate_code_challenge (rng 0)
      ∧ (keycloak_oauth_init cfg pingExit rng sess).session.keycloak_state = some (rng 1)
      ∧ (keycloak_oauth_init cfg pingExit rng sess).session.keycloak_code_verifier
          = some (rng 0) := by
  subst h5
  refine ⟨[("client_id", cfg.keycloak_client_id),
           ("response_type", "code"),
           ("redirect_uri", cfg.app_origin ++ "/oauth/keycloak/callback"),
           ("scope", "openid profile email"),
           ("state", rng 1),
           ("code_challenge", generate_code_challenge (rng 0)),
           ("code_challenge_method", "S256")],
          generate_code_challenge (rng 0), ?_, ?_, ?_, ?_, ?_, ?_, ?_, ?_, rfl, ?_, ?_⟩
  all_goals first
    | (unfold keycloak_oauth_init; simp [h1, h2, h3, h4])
    | simp

/-- C7 witness: a complete configuration and a passing probe at a concrete
random stream. -/
theorem c7_init_success_url_and_pending_flow_witness :
    ∃ ps C,
      (keycloak_oauth_init ⟨"https://kc", "r", "cid", "", "https://app"⟩ 0
          (fun n => if n = 0 then "VERIF" else "STATE") Session.empty).resp =
        .success ("https://kc" ++ "/auth/realms/" ++ "r"
            ++ "/protocol/openid-connect/auth" ++ "?" ++ urlencode ps) "STATE"
      ∧ ("client_id", "cid") ∈ ps
      ∧ ("response_type", "code") ∈ ps
      ∧ ("redirect_uri", "https://app" ++ "/oauth/keycloak/callback") ∈ ps
      ∧ ("scope", "openid profile email") ∈ ps
      ∧ ("state", "STATE") ∈ ps
      ∧ ("code_challenge", C) ∈ ps
      ∧ ("code_challenge_method", "S256") ∈ ps
      ∧ C = generate_code_challenge "VERIF"
      ∧ (keycloak_oauth_init ⟨"https://kc", "r", "cid", "", "https://app"⟩ 0
          (fun n => if n = 0 then "VERIF" else "STATE") Session.empty).session.keycloak_state
          = some "STATE"
      ∧ (keycloak_oauth_init ⟨"https://kc", "r", "cid", "", "https://app"⟩ 0
          (fun n => if n = 0 then "VERIF" else "STATE")
          Session.empty).session.keycloak_code_verifier = some "VERIF" :=
  c7_init_success_url_and_pending_flow ⟨"https://kc", "r", "cid", "", "https://app"⟩ 0
    (fun n => if n = 0 then "VERIF" else "STATE") Session.empty
    (by decide) (by decide) (by decide) (by decide) rfl

/-! ## C8 — initiation failures happen before any flow state is generated -/

/-- C8: flow initiation with an absent required configuration value fails
with the configuration-error response, and with a failing liveness probe
fails with the provider-unreachable response; in every such case the
session is returned unchanged (no PendingFlow persisted) and zero random
tokens were drawn (the failure happens before any verifier, challenge or
state is generated). -/
theorem c8_init_failures_before_flow_state (cfg : Config) (pingExit : Nat)
    (rng : Nat → String) (sess : Session) :
    ((cfg.keycloak_url = "" ∨ cfg.keycloak_realm = "" ∨ cfg.keycloak_client_id = "") →
      keycloak_oauth_init cfg pingExit rng sess =
        ⟨.failure "Keycloak not configured", sess, 0⟩)
    ∧ (cfg.keycloak_url ≠ "" → cfg.keycloak_realm ≠ "" → cfg.keycloak_client_id ≠ "" →
       cfg.app_origin = "" →
      keycloak_oauth_init cfg pingExit rng sess =
        ⟨.failure "APP_ORIGIN not configured", sess, 0⟩)
    ∧ (cfg.keycloak_url ≠ "" → cfg.keycloak_realm ≠ "" → cfg.keycloak_client_id ≠ "" →
       cfg.app_origin ≠ "" → pingExit ≠ 0 →
      keycloak_oauth_init cfg pingExit rng sess =
        ⟨.failure "Network issues with Keycloak", sess, 0⟩) := by
  refine ⟨fun h => ?_, fun h1 h2 h3 h4 => ?_, fun h1 h2 h3 h4 h5 => ?_⟩
  all_goals unfold keycloak_oauth_init
  · simp [h]
  · simp [h1, h2, h3, h4]
  · simp [h1, h2, h3, h4, h5]

/-- C8 witness: a configuration with no provider URL, one with no app
origin, and a complete one with a failing probe, each instantiated
concretely. -/
theorem c8_init_failures_before_flow_state_witness :
    (keycloak_oauth_init ⟨"", "r", "cid", "", "https://app"⟩ 0 (fun _ => "T")
        Session.empty = ⟨.failure "Keycloak not configured", Session.empty, 0⟩)
    ∧ (keycloak_oauth_init ⟨"https://kc", "r", "cid", "", ""⟩ 0 (fun _ => "T")
        Session.empty = ⟨.failure "APP_ORIGIN not configured", Session.empty, 0⟩)
    ∧ (keycloak_oauth_init ⟨"https://kc", "r", "cid", "", "https://app"⟩ 2 (fun _ => "T")
        Session.empty = ⟨.failure "Network issues with Keycloak", Session.empty, 0⟩) :=
  ⟨(c8_init_failures_before_flow_state ⟨"", "r", "cid", "", "https://app"⟩ 0
      (fun _ => "T") Session.empty).1 (Or.inl rfl),
   (c8_init_failures_before_flow_state ⟨"https://kc", "r", "cid", "", ""⟩ 0
      (fun _ => "T") Session.empty).2.1 (by decide) (by decide) (by decide) rfl,
   (c8_init_failures_before_flow_state ⟨"https://kc", "r", "cid", "", "https://app"⟩ 2
      (fun _ => "T") Session.empty).2.2 (by decide) (by decide) (by decide) (by decide)
      (by decide)⟩

/-! ## C10 — the response body discloses the stored CSRF state -/

/-- C10: every successful flow initiation returns a JSON body whose `state`
field is the very same token stored as the session PendingFlow state
(both are `rng 1`). -/
theorem c10_init_response_discloses_state (cfg : Config) (pingExit : Nat)
    (rng : Nat → String) (sess : Session)
    (h1 : cfg.keycloak_url ≠ "") (h2 : cfg.keycloak_realm ≠ "")
    (h3 : cfg.keycloak_client_id ≠ "") (h4 : cfg.app_origin ≠ "")
    (h5 : pingExit = 0) :
    ∃ u, (keycloak_oauth_init cfg pingExit rng sess).resp = .success u (rng 1)
      ∧ (keycloak_oauth_init cfg pingExit rng sess).session.keycloak_state
          = some (rng 1) := by
  subst h5
  unfold keycloak_oauth_init
  simp [h1, h2, h3, h4]

/-- C10 witness: the concrete successful initiation returns `state=STATE`
in the body, matching the stored PendingFlow state. -/
theorem c10_init_response_discloses_state_witness :
    ∃ u, (keycloak_oauth_init ⟨"https://kc", "r", "cid", "", "https://app"⟩ 0
            (fun n => if n = 0 then "VERIF" else "STATE") Session.empty).resp =
          .success u "STATE"
      ∧ (keycloak_oauth_init ⟨"https://kc", "r", "cid", "", "https://app"⟩ 0
            (fun n => if n = 0 then "VERIF" else "STATE")
            Session.empty).session.keycloak_state = some "STATE" :=
  c10_init_response_discloses_state ⟨"https://kc", "r", "cid", "", "https://app"⟩ 0
    (fun n => if n = 0 then "VERIF" else "STATE") Session.empty
    (by decide) (by decide) (by decide) (by decide) rfl

/-! ## C6 — token exchange failure commits nothing and stops the flow -/

/-- C6: for every callback reaching the exchange step (no provider error,
matching state, code present, verifier stored), a failed exchange — a
transport error, an `error` field in the token response, or a missing/empty
`access_token` — ends in an error redirect with the session exactly as it
was (no partial state, not authenticated) and with the token-endpoint POST
as the only outbound call ever attempted: no identity lookup and no
resource count. -/
theorem c6_exchange_failure_commits_nothing (args : Args) (sess : Session)
    (tokenResp userinfoResp : Except String HttpResp) (cloud1 cloud2 : CloudOracle)
    (herr : truthyStr args.error = false)
    (hst : truthyStr args.state = true)
    (hmatch : args.state = sess.keycloak_state)
    (hcode : truthyStr args.code = true)
    (hver : truthyStr sess.keycloak_code_verifier = true)
    (hfail : match tokenResp with
             | .error _ => True
             | .ok tr => (JObj.get tr.json "error").isSome = true
                 ∨ pyTruthyOpt (JObj.get tr.json "access_token") = false) :
    ∃ m, keycloak_oauth_callback args sess tokenResp userinfoResp cloud1 cloud2 =
      ⟨.redirect m "error", sess, [.tokenExchange]⟩ := by
  have hst2 : truthyStr sess.keycloak_state = true := by rw [← hmatch]; exact hst
  unfold keycloak_oauth_callback
  match tokenResp with
  | .error e =>
      exact ⟨"Ошибка API: " ++ e, by simp [herr, hst2, hmatch, hcode, hver]⟩
  | .ok tr =>
      rcases hfail with h | h
      · rcases Option.isSome_iff_exists.mp h with ⟨v, hv⟩
        exact ⟨"Ошибка обмена токена: "
            ++ jvalToStr ((JObj.get tr.json "error_description").getD
                 ((JObj.get tr.json "error").getD (.str "Unknown error"))),
          by simp [herr, hst2, hmatch, hcode, hver, hv]⟩
      · by_cases herrk : (JObj.get tr.json "error").isSome
        · rcases Option.isSome_iff_exists.mp herrk with ⟨v, hv⟩
          exact ⟨"Ошибка обмена токена: "
              ++ jvalToStr ((JObj.get tr.json "error_description").getD
                   ((JObj.get tr.json "error").getD (.str "Unknown error"))),
            by simp [herr, hst2, hmatch, hcode, hver, hv]⟩
        · exact ⟨"Ошибка: токен доступа не получен",
            by simp [herr, hst2, hmatch, hcode, hver, herrk, h]⟩

/-- C6 witness: a token endpoint answering 400 with `error=invalid_grant`
(scenario D) leaves the session untouched and attempts no further calls. -/
theorem c6_exchange_failure_commits_nothing_witness :
    ∃ m, keycloak_oauth_callback argsGood sessPending
        (.ok ⟨400, [("error", .str "invalid_grant")]⟩) uiGood cloudGood cloudGood =
      ⟨.redirect m "error", sessPending, [.tokenExchange]⟩ :=
  c6_exchange_failure_commits_nothing argsGood sessPending
    (.ok ⟨400, [("error", .str "invalid_grant")]⟩) uiGood cloudGood cloudGood
    (by decide) (by decide) (by decide) (by decide) (by decide) (Or.inl (by decide))

/-! ## C1 — identity lookup failure is NOT non-fatal: it crashes (code bug) -/

/-- C1 (code bug): at a callback where the CSRF state matches, the code is
present, the verifier is stored and the exchange succeeds, an identity
(userinfo) lookup failure — a transport error or a non-200 status — leaves
`user_info = None`, and line 222 of src/app.py (`user_info.get(...)`)
raises an uncaught `AttributeError`: the request dies with a 500, the
session is NOT marked authenticated, contradicting the claim (and the
source's own comment that user info is optional). -/
theorem c1_identity_lookup_failure_crashes :
    keycloak_oauth_callback argsGood sessPending tokGood (.error "timeout")
        cloudGood cloudGood =
      ⟨.uncaught (.attributeError "NoneType object has no attribute get"),
       sessPending, [.tokenExchange, .userinfoReq]⟩
    ∧ keycloak_oauth_callback argsGood sessPending tokGood
        (.ok ⟨500, [("error", .str "server_error")]⟩) cloudGood cloudGood =
      ⟨.uncaught (.attributeError "NoneType object has no attribute get"),
       sessPending, [.tokenExchange, .userinfoReq]⟩
    ∧ (keycloak_oauth_callback argsGood sessPending tokGood (.error "timeout")
        cloudGood cloudGood).session.is_authed ≠ some true := by
  decide

/-! ## C2 — resource-count failure: caught, but aborts before authentication -/

/-- C2 counterexample: with state matched, exchange succeeded and identity
claims obtained, a network failure of the resource-count lookup is caught
as a `RequestException` and the callback redirects with an API-error flash
— but the session is returned exactly as it was, NOT finalized as
authenticated, contradicting the claim that is_authenticated is unaffected
and the session still finalizes. -/
theorem c2_counterexample_resource_failure_unauthenticated :
    keycloak_oauth_callback argsGood sessPending tokGood uiGood cloudDown cloudGood =
      ⟨.redirect "Ошибка API: connection refused" "error", sessPending,
       [.tokenExchange, .userinfoReq, .iamTokenReq]⟩
    ∧ (keycloak_oauth_callback argsGood sessPending tokGood uiGood cloudDown
        cloudGood).session.is_authed ≠ some true := by
  decide

/-- A cloud oracle where both calls return 200 but the inventory body has
no `total` field. -/
def cloudNoTotal : CloudOracle :=
  ⟨.ok ⟨200, [("access_token", .str "svc")]⟩, fun _ => .ok ⟨200, []⟩⟩

/-- C2 (amended): for every callback reaching the resource-count step, no
resource-count failure raises to the caller — a raising failure (network
error or HTTP error status at either cloud call) is caught by the
RequestException clause and the callback ends in an API-error redirect
with `all_vms` (vm_count) left unset and the PendingFlow left in place —
but the effect on is_authenticated depends on which of the two duplicated
invocations failed.  First conjunct: if the first (discarded) invocation
of line 223 raises, the session is returned exactly as it was, NOT
finalized as authenticated.  Second conjunct: if the first invocation
succeeds and the second (line 231) raises, `is_authed = true`,
`auth_provider` and the identity fields are already committed and persist
through the caught-exception redirect, so the session ends authenticated
with vm_count unset and the PendingFlow still stored.  Third conjunct: a
missing `total` field does not raise at all — the count is 0 and the flow
finalizes storing vm_count = 0. -/
theorem c2_amended_resource_failure_caught_branches
    (args : Args) (sess : Session) (tokenResp userinfoResp : Except String HttpResp)
    (cloud1 cloud2 : CloudOracle) (tr ur : HttpResp)
    (herr : truthyStr args.error = false)
    (hst : truthyStr args.state = true)
    (hmatch : args.state = sess.keycloak_state)
    (hcode : truthyStr args.code = true)
    (hver : truthyStr sess.keycloak_code_verifier = true)
    (htok : tokenResp = .ok tr)
    (herrk : JObj.get tr.json "error" = none)
    (hat : pyTruthyOpt (JObj.get tr.json "access_token") = true)
    (hui : userinfoResp = .ok ur) (hus : ur.status = 200) :
    (∀ d, (get_all_vms_in_cloud (JObj.get ur.json "cloud_project_id") cloud1).1
          = .error (.requestException d) →
        keycloak_oauth_callback args sess tokenResp userinfoResp cloud1 cloud2 =
          ⟨.redirect ("Ошибка API: " ++ d) "error", sess,
           [.tokenExchange, .userinfoReq]
             ++ (get_all_vms_in_cloud (JObj.get ur.json "cloud_project_id") cloud1).2⟩)
    ∧ (∀ v d, (get_all_vms_in_cloud (JObj.get ur.json "cloud_project_id") cloud1).1
          = .ok v →
        (get_all_vms_in_cloud (JObj.get ur.json "cloud_project_id") cloud2).1
          = .error (.requestException d) →
        ur.json ≠ ([] : JObj) →
        keycloak_oauth_callback args sess tokenResp userinfoResp cloud1 cloud2 =
          ⟨.redirect ("Ошибка API: " ++ d) "error",
           { sess with
              is_authed := some true,
              auth_provider := some "keycloak",
              user_email := JObj.get ur.json "email",
              user_name := pyOr (JObj.get ur.json "preferred_username")
                (JObj.get ur.json "name"),
              user_cloud_project_id := JObj.get ur.json "cloud_project_id" },
           [.tokenExchange, .userinfoReq]
             ++ (get_all_vms_in_cloud (JObj.get ur.json "cloud_project_id") cloud1).2
             ++ (get_all_vms_in_cloud (JObj.get ur.json "cloud_project_id") cloud2).2⟩)
    ∧ ((keycloak_oauth_callback argsGood sessPending tokGood uiGood cloudNoTotal
          cloudNoTotal).session.all_vms = some (.num 0)
      ∧ (keycloak_oauth_callback argsGood sessPending tokGood uiGood cloudNoTotal
          cloudNoTotal).result
          = .redirect "Успешная авторизация через Keycloak" "success") := by
  subst htok hui
  have hst2 : truthyStr sess.keycloak_state = true := by rw [← hmatch]; exact hst
  refine ⟨fun d hfail => ?_, fun v d h1 h2 hne => ?_, by decide⟩
  · unfold keycloak_oauth_callback
    simp [herr, hst2, hmatch, hcode, hver, herrk, hat, hus, hfail]
  · unfold keycloak_oauth_callback
    simp [herr, hst2, hmatch, hcode, hver, herrk, hat, hus, h1, h2, hne]

/-- C2 witness: both raising branches of the amended statement at concrete
inputs — the IAM call failing on the first invocation leaves the session
untouched, while the same failure on the second invocation (after a
successful first) leaves the session authenticated with the identity
fields committed, `all_vms` unset and the PendingFlow still stored. -/
theorem c2_amended_resource_failure_caught_branches_witness :
    keycloak_oauth_callback argsGood sessPending tokGood uiGood cloudDown cloudGood =
      ⟨.redirect ("Ошибка API: " ++ "connection refused") "error", sessPending,
       [.tokenExchange, .userinfoReq]
         ++ (get_all_vms_in_cloud
              (JObj.get [("email", JVal.str "a@b.com"),
                         ("preferred_username", JVal.str "alice"),
                         ("cloud_project_id", JVal.str "P1")] "cloud_project_id")
              cloudDown).2⟩
    ∧ keycloak_oauth_callback argsGood sessPending tokGood uiGood cloudGood cloudDown =
      ⟨.redirect ("Ошибка API: " ++ "connection refused") "error",
       { sessPending with
          is_authed := some true,
          auth_provider := some "keycloak",
          user_email := JObj.get [("email", JVal.str "a@b.com"),
            ("preferred_username", JVal.str "alice"),
            ("cloud_project_id", JVal.str "P1")] "email",
          user_name := pyOr
            (JObj.get [("email", JVal.str "a@b.com"),
              ("preferred_username", JVal.str "alice"),
              ("cloud_project_id", JVal.str "P1")] "preferred_username")
            (JObj.get [("email", JVal.str "a@b.com"),
              ("preferred_username", JVal.str "alice"),
              ("cloud_project_id", JVal.str "P1")] "name"),
          user_cloud_project_id :=
            JObj.get [("email", JVal.str "a@b.com"),
              ("preferred_username", JVal.str "alice"),
              ("cloud_project_id", JVal.str "P1")] "cloud_project_id" },
       [.tokenExchange, .userinfoReq]
         ++ (get_all_vms_in_cloud
              (JObj.get [("email", JVal.str "a@b.com"),
                         ("preferred_username", JVal.str "alice"),
                         ("cloud_project_id", JVal.str "P1")] "cloud_project_id")
              cloudGood).2
         ++ (get_all_vms_in_cloud
              (JObj.get [("email", JVal.str "a@b.com"),
                         ("preferred_username", JVal.str "alice"),
                         ("cloud_project_id", JVal.str "P1")] "cloud_project_id")
              cloudDown).2⟩ :=
  ⟨(c2_amended_resource_failure_caught_branches argsGood sessPending
      tokGood uiGood cloudDown cloudGood ⟨200, [("access_token", .str "T1")]⟩
      ⟨200, [("email", .str "a@b.com"), ("preferred_username", .str "alice"),
             ("cloud_project_id", .str "P1")]⟩
      (by decide) (by decide) (by decide) (by decide) (by decide)
      rfl (by decide) (by decide) rfl rfl).1 "connection refused" rfl,
   (c2_amended_resource_failure_caught_branches argsGood sessPending
      tokGood uiGood cloudGood cloudDown ⟨200, [("access_token", .str "T1")]⟩
      ⟨200, [("email", .str "a@b.com"), ("preferred_username", .str "alice"),
             ("cloud_project_id", .str "P1")]⟩
      (by decide) (by decide) (by decide) (by decide) (by decide)
      rfl (by decide) (by decide) rfl rfl).2.1 (.num 7) "connection refused"
      rfl rfl (by decide)⟩

/-! ## C3 — PendingFlow consumption and replay -/

/-- Every callback run either ends with both PendingFlow keys removed from
the session, or does not produce the success redirect: only the Finalized
(success) paths pop `keycloak_state` and `keycloak_code_verifier`. -/
lemma callback_out_shape (args : Args) (sess : Session)
    (tokenResp userinfoResp : Except String HttpResp) (cloud1 cloud2 : CloudOracle) :
    ((keycloak_oauth_callback args sess tokenResp userinfoResp cloud1 cloud2).session.keycloak_state
        = none
      ∧ (keycloak_oauth_callback args sess tokenResp userinfoResp
          cloud1 cloud2).session.keycloak_code_verifier = none)
    ∨ (∀ m, (keycloak_oauth_callback args sess tokenResp userinfoResp cloud1 cloud2).result
        ≠ .redirect m "success") := by
  cases herr : truthyStr args.error with
  | true => exact Or.inr fun m => by simp [keycloak_oauth_callback, herr]
  | false =>
  cases hst : truthyStr args.state with
  | false => exact Or.inr fun m => by simp [keycloak_oauth_callback, herr, hst]
  | true =>
  by_cases heq : args.state = sess.keycloak_state
  case neg => exact Or.inr fun m => by simp [keycloak_oauth_callback, herr, hst, bne_iff_ne, heq]
  have hst2 : truthyStr sess.keycloak_state = true := by rw [← heq]; exact hst
  cases hcode : truthyStr args.code with
  | false => exact Or.inr fun m => by simp [keycloak_oauth_callback, herr, hst2, heq, hcode]
  | true =>
  cases hver : truthyStr sess.keycloak_code_verifier with
  | false => exact Or.inr fun m => by simp [keycloak_oauth_callback, herr, hst2, heq, hcode, hver]
  | true =>
  match tokenResp with
  | .error e => exact Or.inr fun m => by simp [keycloak_oauth_callback, herr, hst2, heq, hcode, hver]
  | .ok tr =>
  cases herrk : (JObj.get tr.json "error").isSome with
  | true =>
      exact Or.inr fun m => by
        simp [keycloak_oauth_callback, herr, hst2, heq, hcode, hver, herrk]
  | false =>
  cases hat : pyTruthyOpt (JObj.get tr.json "access_token") with
  | false =>
      exact Or.inr fun m => by
        simp [keycloak_oauth_callback, herr, hst2, heq, hcode, hver, herrk, hat]
  | true =>
  match userinfoResp with
  | .error e =>
      exact Or.inr fun m => by
        simp [keycloak_oauth_callback, herr, hst2, heq, hcode, hver, herrk, hat]
  | .ok ur =>
  by_cases hus : ur.status = 200
  case neg =>
      exact Or.inr fun m => by
        simp [keycloak_oauth_callback, herr, hst2, heq, hcode, hver, herrk, hat, hus]
  match hA : (get_all_vms_in_cloud (JObj.get ur.json "cloud_project_id") cloud1).1 with
  | .error (.requestException d) =>
      exact Or.inr fun m => by
        simp [keycloak_oauth_callback, herr, hst2, heq, hcode, hver, herrk, hat, hus, hA]
  | .error (.attributeError d) =>
      exact Or.inr fun m => by
        simp [keycloak_oauth_callback, herr, hst2, heq, hcode, hver, herrk, hat, hus, hA]
  | .ok v =>
  by_cases hne : ur.json = ([] : JObj)
  case pos =>
      rw [hne] at hA
      exact Or.inl (by
        constructor <;>
          simp [keycloak_oauth_callback, herr, hst2, heq, hcode, hver, herrk, hat, hus, hA, hne])
  match hB : (get_all_vms_in_cloud (JObj.get ur.json "cloud_project_id") cloud2).1 with
  | .error (.requestException d) =>
      exact Or.inr fun m => by
        simp [keycloak_oauth_callback, herr, hst2, heq, hcode, hver, herrk, hat, hus, hA, hne, hB]
  | .error (.attributeError d) =>
      exact Or.inr fun m => by
        simp [keycloak_oauth_callback, herr, hst2, heq, hcode, hver, herrk, hat, hus, hA, hne, hB]
  | .ok v2 =>
      exact Or.inl (by
        constructor <;>
          simp [keycloak_oauth_callback, herr, hst2, heq, hcode, hver, herrk, hat, hus, hA, hne, hB])

/-- C3 counterexample: a callback that terminates in a Failed transition
(the token endpoint answers `error=invalid_grant`) leaves the consumed
PendingFlow in the session — state `S` and verifier `V` are still on
record — and a second callback presenting the very same code/state pair
passes the CSRF check and re-processes the flow, even re-finalizing the
session as authenticated when the exchange now succeeds.  This refutes the
claim for Failed transitions. -/
theorem c3_counterexample_failed_leaves_flow_and_replay_refinalizes :
    (keycloak_oauth_callback argsGood sessPending
        (.ok ⟨400, [("error", .str "invalid_grant")]⟩) uiGood cloudGood
        cloudGood).session.keycloak_state = some "S"
    ∧ (keycloak_oauth_callback argsGood sessPending
        (.ok ⟨400, [("error", .str "invalid_grant")]⟩) uiGood cloudGood
        cloudGood).session.keycloak_code_verifier = some "V"
    ∧ (keycloak_oauth_callback argsGood sessPending
        (.ok ⟨400, [("error", .str "invalid_grant")]⟩) uiGood cloudGood
        cloudGood).result = .redirect "Ошибка обмена токена: invalid_grant" "error"
    ∧ (keycloak_oauth_callback argsGood
        (keycloak_oauth_callback argsGood sessPending
          (.ok ⟨400, [("error", .str "invalid_grant")]⟩) uiGood cloudGood
          cloudGood).session
        tokGood uiGood cloudGood cloudGood).result
        = .redirect "Успешная авторизация через Keycloak" "success"
    ∧ (keycloak_oauth_callback argsGood
        (keycloak_oauth_callback argsGood sessPending
          (.ok ⟨400, [("error", .str "invalid_grant")]⟩) uiGood cloudGood
          cloudGood).session
        tokGood uiGood cloudGood cloudGood).session.is_authed = some true := by
  decide

/-- C3 (amended): only a Finalized (success-redirect) transition consumes
the PendingFlow: after any callback run that returns the success redirect,
both `keycloak_state` and `keycloak_code_verifier` are removed from the
session, and every subsequent callback against that session (with no
provider error parameter) fails the CSRF state check.  After a Failed
transition, by contrast, the PendingFlow remains stored (see the
counterexample) and a replayed callback is processed again. -/
theorem c3_amended_only_success_consumes_flow (args : Args) (sess : Session)
    (tokenResp userinfoResp : Except String HttpResp) (cloud1 cloud2 : CloudOracle)
    (m : String)
    (h : (keycloak_oauth_callback args sess tokenResp userinfoResp cloud1 cloud2).result
        = .redirect m "success") :
    (keycloak_oauth_callback args sess tokenResp userinfoResp
        cloud1 cloud2).session.keycloak_state = none
    ∧ (keycloak_oauth_callback args sess tokenResp userinfoResp
        cloud1 cloud2).session.keycloak_code_verifier = none
    ∧ ∀ (args2 : Args) (t2 u2 : Except String HttpResp) (d1 d2 : CloudOracle),
        truthyStr args2.error = false →
        keycloak_oauth_callback args2
            (keycloak_oauth_callback args sess tokenResp userinfoResp
              cloud1 cloud2).session t2 u2 d1 d2 =
          ⟨.redirect "Ошибка безопасности: неверный state параметр" "error",
           (keycloak_oauth_callback args sess tokenResp userinfoResp
             cloud1 cloud2).session, []⟩ := by
  rcases callback_out_shape args sess tokenResp userinfoResp cloud1 cloud2 with
    ⟨h1, h2⟩ | hno
  · refine ⟨h1, h2, fun args2 t2 u2 d1 d2 herr2 => ?_⟩
    refine csrf_check_fails args2 _ t2 u2 d1 d2 herr2 ?_
    cases hstate : args2.state with
    | none => exact Or.inl rfl
    | some a => exact Or.inr (by simp [hstate, h1])
  · exact absurd h (hno m)

/-- C3 witness: the amended statement at the concrete Finalized run of
scenario C — the PendingFlow state key is gone afterwards. -/
theorem c3_amended_only_success_consumes_flow_witness :
    (keycloak_oauth_callback argsGood sessPending tokGood uiGood cloudGood
        cloudGood).session.keycloak_state = none :=
  (c3_amended_only_success_consumes_flow argsGood sessPending tokGood uiGood
    cloudGood cloudGood "Успешная авторизация через Keycloak" (by decide)).1

/-! ## C4 — the resource counter ignores the passed project identifier -/

/-- A cloud oracle that distinguishes the queried URL: the inventory query
for project `P1` would answer total 7, any other URL answers total 3. -/
def cloudSplit : CloudOracle :=
  ⟨.ok ⟨200, [("access_token", .str "svc")]⟩,
   fun u =>
     if u = "https://compute.api.cloud.ru/api/v1/vms?project_id=P1" then
       .ok ⟨200, [("total", .num 7)]⟩
     else .ok ⟨200, [("total", .num 3)]⟩⟩

/-- C4 counterexample: passing project identifier `P1` to the resource
counter does NOT query the inventory endpoint for `P1`: the only inventory
request goes to the hardcoded URL (project
`49abf5c8-9f16-4ca3-b5d3-5eca9bfac631`), and even though the response for
the `P1` query would have total 7, the returned count is 3 — the total of
the hardcoded project — refuting the claim that the stored vm_count is the
total for `p`. -/
theorem c4_counterexample_inventory_not_queried_for_p :
    (get_all_vms_in_cloud (some (.str "P1")) cloudSplit).1 = .ok (.num 3)
    ∧ (get_all_vms_in_cloud (some (.str "P1")) cloudSplit).2
        = [.iamTokenReq, .inventoryReq vms_url]
    ∧ vms_url ≠ "https://compute.api.cloud.ru/api/v1/vms?project_id=P1"
    ∧ cloudSplit.inv "https://compute.api.cloud.ru/api/v1/vms?project_id=P1"
        = .ok ⟨200, [("total", .num 7)]⟩ := by
  exact ⟨rfl, rfl, by decide, rfl⟩

/-- C4 (amended): the resource counter always queries the inventory
endpoint with the hardcoded project id
`49abf5c8-9f16-4ca3-b5d3-5eca9bfac631`, ignoring the passed project
identifier entirely — its whole behaviour is independent of `p`, and every
inventory request it makes goes to the hardcoded URL.  In scenario C the
session still ends authenticated with `project_id = "P1"` and
`vm_count = 7`, but the 7 is the total that the inventory endpoint returns
for the hardcoded project, not for `P1`. -/
theorem c4_amended_inventory_hardcoded_project :
    (∀ (p q : Option JVal) (o : CloudOracle),
        get_all_vms_in_cloud p o = get_all_vms_in_cloud q o)
    ∧ (∀ (p : Option JVal) (o : CloudOracle) (u : String),
        ExtCall.inventoryReq u ∈ (get_all_vms_in_cloud p o).2 → u = vms_url)
    ∧ (keycloak_oauth_callback argsGood sessPending tokGood uiGood cloudGood
        cloudGood).session.user_cloud_project_id = some (.str "P1")
    ∧ (keycloak_oauth_callback argsGood sessPending tokGood uiGood cloudGood
        cloudGood).session.all_vms = some (.num 7)
    ∧ (keycloak_oauth_callback argsGood sessPending tokGood uiGood cloudGood
        cloudGood).session.is_authed = some true := by
  refine ⟨fun p q o => rfl, fun p o u hmem => ?_, by decide, by decide, by decide⟩
  unfold get_all_vms_in_cloud at hmem
  rcases hI : get_access_token_from_cloud o with e | tkn
  · rw [hI] at hmem
    simp at hmem
  · rw [hI] at hmem
    rcases hv : o.inv vms_url with s | resp
    · rw [hv] at hmem
      simp at hmem
      exact hmem
    · rw [hv] at hmem
      by_cases hs : 400 ≤ resp.status ∧ resp.status < 600
      · simp [hs] at hmem
        exact hmem
      · simp [hs] at hmem
        exact hmem

/-- C4 witness: the amended statement instantiated — the result is
independent of the project id, and the inventory request at a concrete
oracle goes to the hardcoded URL. -/
theorem c4_amended_inventory_hardcoded_project_witness :
    get_all_vms_in_cloud (some (.str "P1")) cloudGood
      = get_all_vms_in_cloud (some (.str "P2")) cloudGood
    ∧ "https://compute.api.cloud.ru/api/v1/vms?project_id=49abf5c8-9f16-4ca3-b5d3-5eca9bfac631"
        = vms_url :=
  ⟨c4_amended_inventory_hardcoded_project.1 (some (.str "P1")) (some (.str "P2")) cloudGood,
   c4_amended_inventory_hardcoded_project.2.1 (some (.str "P1")) cloudGood
     "https://compute.api.cloud.ru/api/v1/vms?project_id=49abf5c8-9f16-4ca3-b5d3-5eca9bfac631"
     (by decide)⟩
